import Mathlib

/-!
Verification of the `startup` Go package: a shallow embedding of the task
supervisor (`startup.go`), the discovery registry (`discovery.go`) and the
identity / connection protocol (`identity.go`, `connect_structs.go`,
`data_structs.go`), with theorems settling the specification claims.

Modelling conventions:
* Channels are identified by `Nat` handles; a value carried by a channel is
  modelled explicitly where a claim needs it.
* `time.Duration` values are modelled in seconds (`10 * time.Second` becomes
  `10`, `time.Hour` becomes `3600`).
* Go `select` over several ready cases picks one ready case
  pseudo-randomly; we model this with an arbitrary `choice : Nat` index into
  the list of ready branches (`selectCase`).  A select with no ready branch
  blocks, modelled by the result `none`.
* Fallible Go functions returning `error` become `Except GoError`;
  nil-able references become `Option`.
-/

namespace Startup

/-- `Status` from `data_structs.go`: outcome classification of a `Res`. -/
inductive Status
  | unknownStatus
  | success
  | error
  | requestTimeout
  deriving DecidableEq

/-- `Req` from `data_structs.go`: type tag plus opaque payload (`Data any`,
modelled as an optional string; `none` is Go `nil`). -/
structure Req where
  ty : String
  data : Option String
  deriving DecidableEq

/-- `Res` from `data_structs.go`: status, type tag, payload, and error detail
(`Error error`, modelled as an optional message). -/
structure Res where
  status : Status
  ty : String
  data : Option String
  err : Option String
  deriving DecidableEq

/-- `ReqWithChan` from `data_structs.go`: a `Req` plus the conduit handle on
which the requestor expects the `Res`. -/
structure ReqWithChan where
  req : Req
  chanH : Nat
  deriving DecidableEq

/-- `Connection` from `connect_structs.go`: the request conduit assigned by the
remote, plus the idle timeout after which the remote drops the connection. -/
structure Connection where
  reqChan : Nat
  timeout : Nat
  deriving DecidableEq

/-- `Connect` from `connect_structs.go`: the initial message a requestor sends
to a remote: its own id and the reply conduit for the `Connection`. -/
structure Connect where
  reqID : String
  chanH : Nat
  deriving DecidableEq

/-- The distinct `errors.New` values declared across the package. -/
inductive GoError
  | errNameAlreadyExists
  | errFuncMustNotBeNil
  | errMissingStartableFunctions
  | errInvalidTimeout
  | errInvalidPauseTimeout
  | errNilID
  | errInvalidID
  | errIDNotFound
  | errIDAlreadyRegistered
  | errContextCompleted
  | errConnectionChan
  | errNilConnection
  | errConnectTimeout
  | errNoDiscoveryService
  deriving DecidableEq

/-- A handler invocation either terminates normally, having written the final
contents `r` into the fresh `Res` it was handed, or panics with a message.
This models `Handler func(context.Context, *Req, *Res)` from `identity.go`. -/
inductive HandlerStep
  | ret (r : Res)
  | panics (msg : String)

/-- The behaviour of a registered request handler on the fresh `Req` it is
given (see `HandlerStep`). -/
def Handler := Req → HandlerStep

/-- `Location` from `identity.go`: the inbound conduit of an identity,
modelled by its handle. -/
abbrev Location := Nat

/-- The `identity` struct from `identity.go`: id, inbound connect conduit,
optional handler, idle timeout. -/
structure identity where
  id : String
  ch : Nat
  h : Option Handler
  idleTimeout : Nat

/-- `identity.Loc` from `identity.go`: the inbound conduit. -/
def identity.Loc (i : identity) : Location := i.ch

/-- The `ds` struct from `discovery.go`: the registry mapping from identity
name to identity (the Go `map[string]Identity`, modelled as an association
list; the mutex is a concurrency artifact with no sequential content). -/
structure ds where
  m : List (String × identity)

/-- `ds.Register` from `discovery.go`: nil identity is rejected with
`ErrNilID`; an already-present name is rejected with `ErrIDAlreadyRegistered`;
otherwise the identity is inserted into the mapping. -/
def ds.Register (d : ds) (i : Option identity) : Except GoError ds :=
  match i with
  | none => .error .errNilID
  | some j =>
    match d.m.lookup j.id with
    | some _ => .error .errIDAlreadyRegistered
    | none => .ok { m := (j.id, j) :: d.m }

/-- `ds.Find` from `discovery.go`: an empty name is rejected with
`ErrInvalidID`; an unregistered name with `ErrIDNotFound`; otherwise the
registered identity's `Loc` is returned.  `Find` only reads the mapping: its
type returns no updated `ds`, which is exactly the statement that the mapping
is left unchanged. -/
def ds.Find (d : ds) (i : String) : Except GoError Location :=
  if i.length = 0 then .error .errInvalidID
  else
    match d.m.lookup i with
    | none => .error .errIDNotFound
    | some j => .ok j.Loc

/-- Claim C7: `Register(id)` fails with `ErrNilID` when the identity is
absent, fails with `ErrIDAlreadyRegistered` when a mapping for its name
already exists, and otherwise inserts the identity; `Find(name)` fails with
`ErrInvalidID` when the name is empty, fails with `ErrIDNotFound` when the
name is not present, and otherwise returns that identity's `Loc`.  `Find`
leaves the mapping unchanged by construction (it returns no state).  The
final conjunct checks that a freshly registered identity is found. -/
theorem claim_C7_registry (d : ds) (i : identity) (name : String) :
    (d.Register none = .error .errNilID) ∧
    ((d.m.lookup i.id).isSome → d.Register (some i) = .error .errIDAlreadyRegistered) ∧
    (d.m.lookup i.id = none →
      d.Register (some i) = .ok { m := (i.id, i) :: d.m } ∧
      ∀ d2 : ds, d.Register (some i) = .ok d2 → d2.m.lookup i.id = some i) ∧
    (d.Find "" = .error .errInvalidID) ∧
    (name.length ≠ 0 → d.m.lookup name = none → d.Find name = .error .errIDNotFound) ∧
    (name.length ≠ 0 → ∀ j, d.m.lookup name = some j → d.Find name = .ok j.Loc) := by
  refine ⟨rfl, ?_, ?_, rfl, ?_, ?_⟩
  · intro hsome
    rcases Option.isSome_iff_exists.mp hsome with ⟨j, hj⟩
    simp [ds.Register, hj]
  · intro hnone
    refine ⟨by simp [ds.Register, hnone], ?_⟩
    intro d2 hreg
    simp only [ds.Register, hnone] at hreg
    cases hreg
    simp [List.lookup]
  · intro hlen hnone
    simp [ds.Find, hlen, hnone]
  · intro hlen j hj
    simp [ds.Find, hlen, hj]

/-- A handler-free identity used to instantiate registry claims. -/
def idA : identity := { id := "A", ch := 0, h := none, idleTimeout := 60 }

/-- Witness for claim C7: the registry operations evaluated on a concrete
empty registry and the concrete identity `idA`. -/
theorem claim_C7_registry_witness :
    ds.Register { m := [] } none = .error .errNilID ∧
    ds.Register { m := [] } (some idA) = .ok { m := [("A", idA)] } ∧
    ds.Find { m := [] } "" = .error .errInvalidID ∧
    ds.Find { m := [("A", idA)] } "B" = .error .errIDNotFound ∧
    ds.Find { m := [("A", idA)] } "A" = .ok idA.Loc := by
  have h1 := claim_C7_registry { m := [] } idA "B"
  have h2 := claim_C7_registry { m := [("A", idA)] } idA "B"
  have h3 := claim_C7_registry { m := [("A", idA)] } idA "A"
  exact ⟨h1.1, (h1.2.2.1 rfl).1, h1.2.2.2.1,
    h2.2.2.2.2.1 (by decide) rfl,
    h3.2.2.2.2.2 (by decide) idA rfl⟩

/-- `StartableFunction` from `startup.go`, as an opaque handle: the claims
only inspect whether a declaration's `Func` is nil. -/
abbrev StartableFunction := Nat

/-- `FunctionDeclaration` from `startup.go`.  `func` is `Option` because Go's
`Func` may be nil; `args` is `Option` because a Go slice may be nil; `handler`
is an opaque optional handle. -/
structure FunctionDeclaration where
  name : String
  func : Option StartableFunction
  args : Option (List String)
  registerWithDiscoveryService : Bool
  handler : Option Nat
  deriving DecidableEq

/-- `createNameIfMissing` from `startup.go`: an empty name is replaced by a
freshly generated random hex string (here: the next value of the supplied
generator). -/
def createNameIfMissing (fresh : String) (name : String) : String :=
  if name.length = 0 then fresh else name

/-- `createArgsIfMissing` from `startup.go`: a nil args slice becomes the
empty slice. -/
def createArgsIfMissing (args : Option (List String)) : List String :=
  match args with
  | none => []
  | some a => a

/-- The name-assignment loop of `StartNamedFunctions`: rebuilds each
declaration with `createNameIfMissing` / `createArgsIfMissing` applied.
`g` supplies the random names and `k` counts how many have been drawn,
mirroring one `crypto/rand` read per empty name. -/
def applyNames (g : Nat → String) : Nat → List FunctionDeclaration → List FunctionDeclaration
  | _, [] => []
  | k, fn :: rest =>
    if fn.name.length = 0 then
      { name := createNameIfMissing (g k) fn.name, func := fn.func,
        args := some (createArgsIfMissing fn.args),
        registerWithDiscoveryService := fn.registerWithDiscoveryService,
        handler := fn.handler } :: applyNames g (k + 1) rest
    else
      { name := createNameIfMissing (g k) fn.name, func := fn.func,
        args := some (createArgsIfMissing fn.args),
        registerWithDiscoveryService := fn.registerWithDiscoveryService,
        handler := fn.handler } :: applyNames g k rest

/-- `FunctionDeclaration.validate` from `startup.go`: the name must not be in
the seen-names map (else `ErrNameAlreadyExists`; on success it is added), and
`Func` must not be nil (else `ErrFuncMustNotBeNil`). -/
def FunctionDeclaration.validate (f : FunctionDeclaration) (m : List String) :
    Except GoError (List String) :=
  if f.name ∈ m then .error .errNameAlreadyExists
  else if f.func.isNone then .error .errFuncMustNotBeNil
  else .ok (f.name :: m)

/-- The validation loop of `StartNamedFunctions`: validates each declaration
in order against the accumulated name map, stopping at the first error. -/
def validateAll : List FunctionDeclaration → List String → Except GoError (List String)
  | [], m => .ok m
  | fn :: rest, m =>
    match fn.validate m with
    | .error e => .error e
    | .ok m2 => validateAll rest m2

/-- The option-application loop of `StartNamedFunctions`: each `OptionSetter`
either succeeds or yields an error, and the first error aborts. -/
def applyOpts : List (Option GoError) → Option GoError
  | [] => none
  | none :: rest => applyOpts rest
  | some e :: _ => some e

/-- The `funcMgr` struct from `startup.go`, restricted to its observable
sequential state: whether `shutdownCtx` is done, whether the
`startAwaitShutdown` watcher goroutine has run its body, whether `exitCtx`
has been cancelled, the three parallel bookkeeping slices (`cs` holds each
task context's cancelled flag, `cfs` the cancel functions as indices, `chs`
the completion signals), and the declarations handed to spawned workers. -/
structure funcMgr where
  shutdownDone : Bool
  cascadeRan : Bool
  exitDone : Bool
  cs : List Bool
  cfs : List Nat
  chs : List Bool
  spawned : List FunctionDeclaration
  deriving DecidableEq

/-- A `context.CancelFunc` on a task context: marks the context cancelled;
cancelling an already-cancelled context is a no-op. -/
def cancelCtx (_c : Bool) : Bool := true

/-- `funcMgr.shutdown` from `startup.go`: calls `shutdownCancel`, i.e. marks
the shutdown context done (idempotently, as Go context cancellation is). -/
def funcMgr.shutdown (f : funcMgr) : funcMgr := { f with shutdownDone := true }

/-- The body of the goroutine started by `funcMgr.startAwaitShutdown`: blocks
until `shutdownCtx` is done, then (under the lock) invokes every registered
cancel function and cancels `exitCtx`.  The goroutine body runs at most once
per supervisor instance, recorded by `cascadeRan`. -/
def funcMgr.runShutdownCascade (f : funcMgr) : funcMgr :=
  if f.shutdownDone && !f.cascadeRan then
    { f with cs := f.cs.map cancelCtx, cascadeRan := true, exitDone := true }
  else f

/-- `funcMgr.addFn` from `startup.go`: under the lock, if the shutdown context
is already done nothing happens; otherwise a fresh context, cancel function
and completion channel are appended and a supervised worker is spawned for
the declaration. -/
def funcMgr.addFn (f : funcMgr) (fn : FunctionDeclaration) : funcMgr :=
  if f.shutdownDone then f
  else { f with
    cs := f.cs ++ [false],
    cfs := f.cfs ++ [f.cfs.length],
    chs := f.chs ++ [false],
    spawned := f.spawned ++ [fn] }

/-- The initial `funcMgr` built by `StartNamedFunctions` before any
declaration is added. -/
def initMgr : funcMgr :=
  { shutdownDone := false, cascadeRan := false, exitDone := false,
    cs := [], cfs := [], chs := [], spawned := [] }

/-- `StartNamedFunctions` from `startup.go`, up to the point where the workers
have been spawned: empty list check, name assignment, validation, option
application, then `addFn` per declaration.  An `.error` result is returned
before the spawn loop runs, so no worker is started on any error path. -/
def startNamedFunctions (g : Nat → String) (funcs : List FunctionDeclaration)
    (opts : List (Option GoError)) : Except GoError funcMgr :=
  if funcs.length = 0 then .error .errMissingStartableFunctions
  else
    match validateAll (applyNames g 0 funcs) [] with
    | .error e => .error e
    | .ok _ =>
      match applyOpts opts with
      | some e => .error e
      | none => .ok ((applyNames g 0 funcs).foldl funcMgr.addFn initMgr)

theorem validateAll_ok_iff (fns : List FunctionDeclaration) (m : List String) :
    (∃ m2, validateAll fns m = .ok m2) ↔
      ((fns.map FunctionDeclaration.name).Nodup ∧
       (∀ n ∈ fns.map FunctionDeclaration.name, n ∉ m) ∧
       (∀ fn ∈ fns, fn.func.isSome)) := by
  induction fns generalizing m with
  | nil => simp [validateAll]
  | cons fn rest ih =>
    by_cases hmem : fn.name ∈ m
    · simp only [validateAll, FunctionDeclaration.validate, if_pos hmem]
      constructor
      · rintro ⟨m2, hm2⟩; cases hm2
      · rintro ⟨-, h2, -⟩
        exact absurd hmem (h2 fn.name (by simp))
    · by_cases hfn : fn.func.isNone
      · simp only [validateAll, FunctionDeclaration.validate, if_neg hmem, if_pos hfn]
        constructor
        · rintro ⟨m2, hm2⟩; cases hm2
        · rintro ⟨-, -, h3⟩
          have := h3 fn (by simp)
          rw [Option.isNone_iff_eq_none] at hfn
          simp [hfn] at this
      · simp only [validateAll, FunctionDeclaration.validate, if_neg hmem, if_neg hfn]
        rw [ih (fn.name :: m), List.map_cons, List.nodup_cons]
        constructor
        · rintro ⟨h1, h2, h3⟩
          refine ⟨⟨fun hin => h2 fn.name hin (List.mem_cons_self _ _), h1⟩, ?_, ?_⟩
          · intro n hn
            rcases List.mem_cons.mp hn with rfl | hn2
            · exact hmem
            · exact fun hm2 => h2 n hn2 (List.mem_cons_of_mem _ hm2)
          · intro d hd
            rcases List.mem_cons.mp hd with rfl | hd2
            · cases hf : d.func with
              | none => exact absurd (by simp [hf]) hfn
              | some v => simp
            · exact h3 d hd2
        · rintro ⟨⟨hnotin, h1⟩, h2, h3⟩
          refine ⟨h1, ?_, ?_⟩
          · intro n hn hm2
            rcases List.mem_cons.mp hm2 with rfl | hm3
            · exact hnotin hn
            · exact h2 n (List.mem_cons_of_mem _ hn) hm3
          · intro d hd
            exact h3 d (List.mem_cons_of_mem _ hd)

theorem validateAll_error_all_some (fns : List FunctionDeclaration) (m : List String)
    (h : ∀ fn ∈ fns, fn.func.isSome) :
    ∀ e, validateAll fns m = .error e → e = .errNameAlreadyExists := by
  induction fns generalizing m with
  | nil => intro e he; cases he
  | cons fn rest ih =>
    intro e he
    by_cases hmem : fn.name ∈ m
    · simp only [validateAll, FunctionDeclaration.validate, if_pos hmem] at he
      cases he; rfl
    · have hfn : ¬ fn.func.isNone := by
        have := h fn (by simp)
        simp [Option.isNone_iff_eq_none, ← Option.ne_none_iff_isSome] at this ⊢
        exact this
      simp only [validateAll, FunctionDeclaration.validate, if_neg hmem, if_neg hfn] at he
      exact ih (fn.name :: m) (fun d hd => h d (List.mem_cons_of_mem _ hd)) e he

theorem validateAll_error_nodup (fns : List FunctionDeclaration) (m : List String)
    (h1 : (fns.map FunctionDeclaration.name).Nodup)
    (h2 : ∀ n ∈ fns.map FunctionDeclaration.name, n ∉ m) :
    ∀ e, validateAll fns m = .error e → e = .errFuncMustNotBeNil := by
  induction fns generalizing m with
  | nil => intro e he; cases he
  | cons fn rest ih =>
    intro e he
    have hmem : fn.name ∉ m := h2 fn.name (by simp)
    by_cases hfn : fn.func.isNone
    · simp only [validateAll, FunctionDeclaration.validate, if_neg hmem, if_pos hfn] at he
      cases he; rfl
    · simp only [validateAll, FunctionDeclaration.validate, if_neg hmem, if_neg hfn] at he
      simp only [List.map_cons, List.nodup_cons] at h1
      refine ih (fn.name :: m) h1.2 ?_ e he
      intro n hn hnmem
      rcases List.mem_cons.mp hnmem with rfl | hnm
      · exact h1.1 hn
      · exact h2 n (List.mem_cons_of_mem _ hn) hnm

/-- Claim C1: `StartNamedFunctions` fails eagerly — with
`ErrMissingStartableFunctions` on an empty declaration list, with
`ErrNameAlreadyExists` when two declarations share a post-name-generation
name, and with `ErrFuncMustNotBeNil` when a declaration's `Func` is nil —
and in the model an `.error` result is produced before the spawn loop, so no
worker is spawned and no other side effect occurs; conversely an `.ok`
result certifies that none of the fault conditions held. -/
theorem claim_C1_eager_validation (g : Nat → String) (funcs : List FunctionDeclaration)
    (opts : List (Option GoError)) :
    (funcs = [] → startNamedFunctions g funcs opts = .error .errMissingStartableFunctions) ∧
    (¬ ((applyNames g 0 funcs).map FunctionDeclaration.name).Nodup →
      (∀ fn ∈ applyNames g 0 funcs, fn.func.isSome) →
      startNamedFunctions g funcs opts = .error .errNameAlreadyExists) ∧
    (((applyNames g 0 funcs).map FunctionDeclaration.name).Nodup →
      (∃ fn ∈ applyNames g 0 funcs, fn.func = none) →
      startNamedFunctions g funcs opts = .error .errFuncMustNotBeNil) ∧
    (∀ mgr, startNamedFunctions g funcs opts = .ok mgr →
      funcs ≠ [] ∧ ((applyNames g 0 funcs).map FunctionDeclaration.name).Nodup ∧
      (∀ fn ∈ applyNames g 0 funcs, fn.func.isSome) ∧
      mgr = (applyNames g 0 funcs).foldl funcMgr.addFn initMgr) := by
  refine ⟨?_, ?_, ?_, ?_⟩
  · rintro rfl
    simp [startNamedFunctions]
  · intro hdup hsome
    have hne2 : funcs ≠ [] := by
      rintro rfl
      simp [applyNames] at hdup
    cases hv : validateAll (applyNames g 0 funcs) [] with
    | error e =>
      have he := validateAll_error_all_some (applyNames g 0 funcs) [] hsome e hv
      subst he
      simp [startNamedFunctions, hne2, hv]
    | ok m2 =>
      have := (validateAll_ok_iff (applyNames g 0 funcs) []).mp ⟨m2, hv⟩
      exact absurd this.1 hdup
  · intro hnodup hnil
    have hne2 : funcs ≠ [] := by
      rintro rfl
      simp [applyNames] at hnil
    cases hv : validateAll (applyNames g 0 funcs) [] with
    | error e =>
      have he := validateAll_error_nodup (applyNames g 0 funcs) [] hnodup (by simp) e hv
      subst he
      simp [startNamedFunctions, hne2, hv]
    | ok m2 =>
      have := (validateAll_ok_iff (applyNames g 0 funcs) []).mp ⟨m2, hv⟩
      rcases hnil with ⟨fn, hfn, hnone⟩
      have := this.2.2 fn hfn
      simp [hnone] at this
  · intro mgr hok
    by_cases hne2 : funcs = []
    · subst hne2
      simp [startNamedFunctions] at hok
    · cases hv : validateAll (applyNames g 0 funcs) [] with
      | error e => simp [startNamedFunctions, hne2, hv] at hok
      | ok m2 =>
        have hchar := (validateAll_ok_iff (applyNames g 0 funcs) []).mp ⟨m2, hv⟩
        cases ho : applyOpts opts with
        | some e => simp [startNamedFunctions, hne2, hv, ho] at hok
        | none =>
          simp [startNamedFunctions, hne2, hv, ho] at hok
          exact ⟨hne2, hchar.1, hchar.2.2, hok.symm⟩

/-- A concrete name generator for witnesses. -/
def genName : Nat → String := fun _ => "generated"

/-- A concrete declaration list in which two declarations share the explicit
name "A". -/
def dupDecls : List FunctionDeclaration :=
  [{ name := "A", func := some 0, args := none,
     registerWithDiscoveryService := false, handler := none },
   { name := "A", func := some 1, args := none,
     registerWithDiscoveryService := false, handler := none }]

/-- Witness for claim C1: on the empty list the launch fails with
`ErrMissingStartableFunctions`, and on `dupDecls` it fails with
`ErrNameAlreadyExists`. -/
theorem claim_C1_eager_validation_witness :
    startNamedFunctions genName [] [] = .error .errMissingStartableFunctions ∧
    startNamedFunctions genName dupDecls [] = .error .errNameAlreadyExists := by
  refine ⟨(claim_C1_eager_validation genName [] []).1 rfl, ?_⟩
  exact (claim_C1_eager_validation genName dupDecls []).2.1 (by decide) (by decide)

/-- Claim C10: when the supervisor's shutdown context is already done,
`addFn` is a no-op — the state is unchanged, so nothing is appended to `cs`,
`cfs` or `chs` and no worker is spawned. -/
theorem claim_C10_addFn_noop_after_shutdown (f : funcMgr) (fn : FunctionDeclaration)
    (h : f.shutdownDone = true) :
    f.addFn fn = f ∧
    (f.addFn fn).cs = f.cs ∧ (f.addFn fn).cfs = f.cfs ∧
    (f.addFn fn).chs = f.chs ∧ (f.addFn fn).spawned = f.spawned := by
  simp [funcMgr.addFn, h]

/-- Witness for claim C10: `addFn` on a concrete shut-down supervisor with one
registered task leaves the state untouched. -/
theorem claim_C10_addFn_noop_after_shutdown_witness :
    funcMgr.addFn
      { shutdownDone := true, cascadeRan := true, exitDone := false,
        cs := [false], cfs := [0], chs := [false], spawned := [] }
      { name := "late", func := some 7, args := none,
        registerWithDiscoveryService := false, handler := none } =
      { shutdownDone := true, cascadeRan := true, exitDone := false,
        cs := [false], cfs := [0], chs := [false], spawned := [] } :=
  (claim_C10_addFn_noop_after_shutdown _ _ rfl).1

/-- Claim C9: the shutdown cascade is idempotent and fan-out-once.
Triggering shutdown is idempotent; once triggered, the watcher body cancels
every currently-registered task context and records that it has run; running
the watcher body again changes nothing; re-triggering the already-fired
cascade leaves the state fixed; and the per-context cancel operation is safe
to invoke multiple times. -/
theorem claim_C9_cascade_once (f : funcMgr) (h : f.cascadeRan = false) :
    (f.shutdown.shutdown = f.shutdown) ∧
    (∀ c ∈ f.shutdown.runShutdownCascade.cs, c = true) ∧
    (f.shutdown.runShutdownCascade.cascadeRan = true) ∧
    (f.shutdown.runShutdownCascade.runShutdownCascade = f.shutdown.runShutdownCascade) ∧
    (f.shutdown.runShutdownCascade.shutdown.runShutdownCascade =
      f.shutdown.runShutdownCascade) ∧
    (∀ b : Bool, cancelCtx (cancelCtx b) = cancelCtx b) := by
  refine ⟨rfl, ?_, ?_, ?_, ?_, fun b => rfl⟩
  · intro c hc
    simp [funcMgr.shutdown, funcMgr.runShutdownCascade, h, cancelCtx] at hc
    rcases hc with ⟨b, -, rfl⟩
    rfl
  · simp [funcMgr.shutdown, funcMgr.runShutdownCascade, h]
  · simp [funcMgr.shutdown, funcMgr.runShutdownCascade, h]
  · simp [funcMgr.shutdown, funcMgr.runShutdownCascade, h]

/-- Witness for claim C9: on a concrete supervisor with two registered task
contexts, triggering and running the cascade cancels both contexts, and the
fired state is a fixed point of re-triggering and re-running. -/
theorem claim_C9_cascade_once_witness :
    (funcMgr.runShutdownCascade
        (funcMgr.shutdown
          { shutdownDone := false, cascadeRan := false, exitDone := false,
            cs := [false, false], cfs := [0, 1], chs := [false, false],
            spawned := [] })).cascadeRan = true ∧
    funcMgr.shutdown (funcMgr.shutdown
        { shutdownDone := false, cascadeRan := false, exitDone := false,
          cs := [false, false], cfs := [0, 1], chs := [false, false],
          spawned := [] }) =
      funcMgr.shutdown
        { shutdownDone := false, cascadeRan := false, exitDone := false,
          cs := [false, false], cfs := [0, 1], chs := [false, false],
          spawned := [] } := by
  have h := claim_C9_cascade_once
    { shutdownDone := false, cascadeRan := false, exitDone := false,
      cs := [false, false], cfs := [0, 1], chs := [false, false],
      spawned := [] } rfl
  exact ⟨h.2.2.1, h.1⟩

/-- Go `select`: among the currently ready branches `rb`, one is chosen
pseudo-randomly; we quantify over an arbitrary `choice`.  `none` means no
branch is ready, i.e. the select blocks. -/
def selectCase {α : Type} (rb : List α) (choice : Nat) : Option α :=
  rb[choice % rb.length]?

/-- `ConnectOptions` from `identity.go` (durations in seconds). -/
structure ConnectOptions where
  timeout : Nat
  discoveryService : Option ds

/-- `defaultConnectOptions` from `identity.go`: 10 second timeout, no
discovery service. -/
def defaultConnectOptions : ConnectOptions := { timeout := 10, discoveryService := none }

/-- `SendOptions` from `identity.go` (durations in seconds). -/
structure SendOptions where
  timeout : Nat
  deriving DecidableEq

/-- `defaultSendOptions` from `identity.go`: one hour. -/
def defaultSendOptions : SendOptions := { timeout := 3600 }

/-- State of the reply conduit in `Connect`'s select: nothing received yet,
conduit closed, or a value received (Go `*Connection`, possibly nil). -/
inductive ConnReply
  | noValue
  | closed
  | value (c : Option Connection)
  deriving DecidableEq

/-- The three racing events of `Connect`'s select, in source order:
`ctx.Done()`, `time.After(o.Timeout)`, receive on the reply conduit. -/
inductive ConnBranch
  | bCtx
  | bTimer
  | bReply
  deriving DecidableEq

/-- Which events are available when `Connect`'s select runs: the caller's
context being done, the connect timer having fired, the reply conduit holding
a value or being closed. -/
structure ConnectRace where
  ctxDone : Bool
  timerFired : Bool
  reply : ConnReply
  deriving DecidableEq

/-- The ready branches of `Connect`'s select, in source order. -/
def connectReady (s : ConnectRace) : List ConnBranch :=
  (if s.ctxDone then [ConnBranch.bCtx] else []) ++
  (if s.timerFired then [ConnBranch.bTimer] else []) ++
  (match s.reply with
   | ConnReply.noValue => []
   | _ => [ConnBranch.bReply])

/-- `identity.Connect` from `identity.go`: with no discovery service
configured it fails with `ErrNoDiscoveryService`; a failed `Find` becomes
`ErrIDNotFound`; otherwise the `Connect` message (`{ReqID: i.id, Chan: ch}`
for the borrowed conduit `connCh`) is sent to the resolved location and the
select races context completion (`ErrContextCompleted`), the timeout
(`ErrConnectTimeout`) and the reply (closed → `ErrConnectionChan`, nil →
`ErrNilConnection`, otherwise the `Connection`).  The first component is the
call's outcome (`none` = still blocked in the select); the second is the
`Connect` message that was sent, if any. -/
def identity.Connect (i : identity) (o : ConnectOptions) (tgt : String)
    (connCh : Nat) (s : ConnectRace) (choice : Nat) :
    Option (Except GoError Connection) × Option Startup.Connect :=
  match o.discoveryService with
  | none => (some (.error .errNoDiscoveryService), none)
  | some d =>
    match d.Find tgt with
    | .error _ => (some (.error .errIDNotFound), none)
    | .ok _ =>
      let sent : Startup.Connect := { reqID := i.id, chanH := connCh }
      match selectCase (connectReady s) choice with
      | none => (none, some sent)
      | some ConnBranch.bCtx => (some (.error .errContextCompleted), some sent)
      | some ConnBranch.bTimer => (some (.error .errConnectTimeout), some sent)
      | some ConnBranch.bReply =>
        match s.reply with
        | ConnReply.noValue => (none, some sent)
        | ConnReply.closed => (some (.error .errConnectionChan), some sent)
        | ConnReply.value none => (some (.error .errNilConnection), some sent)
        | ConnReply.value (some c) => (some (.ok c), some sent)

/-- State of the response conduit in `Send`'s select. -/
inductive SendReply
  | noValue
  | closed
  | value (r : Res)
  deriving DecidableEq

/-- The three racing events of `Send`'s select, in source order:
`ctx.Done()`, receive on the response conduit, `time.After(o.Timeout)`. -/
inductive SendBranch
  | bCtx
  | bReply
  | bTimer
  deriving DecidableEq

/-- Which events are available when `Send`'s select runs. -/
structure SendRace where
  ctxDone : Bool
  timerFired : Bool
  reply : SendReply
  deriving DecidableEq

/-- The ready branches of `Send`'s select, in source order. -/
def sendReady (s : SendRace) : List SendBranch :=
  (if s.ctxDone then [SendBranch.bCtx] else []) ++
  (match s.reply with
   | SendReply.noValue => []
   | _ => [SendBranch.bReply]) ++
  (if s.timerFired then [SendBranch.bTimer] else [])

/-- The `Res` built by `Send`'s timeout branch:
`&Res{Status: RequestTimeout, Error: errors.New("timeout")}`. -/
def timeoutRes : Res :=
  { status := .requestTimeout, ty := "", data := none, err := some "timeout" }

/-- The select body of `Send`: the chosen branch's return value, paired with
the number of times that branch itself returns the borrowed response conduit
to the pool (the `ctx.Done()` case calls `resChPool.Put(rCh)` explicitly). -/
def sendSelect (s : SendRace) (choice : Nat) : Option (Option Res × Nat) :=
  match selectCase (sendReady s) choice with
  | none => none
  | some SendBranch.bCtx => some (none, 1)
  | some SendBranch.bReply =>
    match s.reply with
    | SendReply.noValue => none
    | SendReply.closed => some (none, 0)
    | SendReply.value r => some (some r, 0)
  | some SendBranch.bTimer => some (some timeoutRes, 0)

/-- The drain condition of `Send`'s deferred cleanup: the conduit is drained
(`<-rCh`) exactly when the returned `Res` is non-nil with `RequestTimeout`
status; the cleanup then always performs one further `resChPool.Put(rCh)`. -/
def sendDeferCleanup (r : Option Res) : Bool :=
  match r with
  | some res => res.status == Status.requestTimeout
  | none => false

/-- The envelope `Send` pushes onto the target's request conduit: a copy of
the request's type and payload, plus the borrowed response conduit `rch`. -/
def sendEnvelope (req : Req) (rch : Nat) : ReqWithChan :=
  { req := { ty := req.ty, data := req.data }, chanH := rch }

/-- Everything observable about one completed or blocked `Send` call. -/
structure SendOutcome where
  ret : Option Res
  puts : Nat
  drained : Bool
  deriving DecidableEq

/-- A `Send` call's trace: the conduit the envelope was pushed onto, the
envelope itself, and the outcome (`none` while the select is blocked). -/
structure SendTrace where
  sentOn : Nat
  env : ReqWithChan
  outcome : Option SendOutcome
  deriving DecidableEq

/-- `identity.Send` from `identity.go`: borrows a response conduit `rch` from
the pool, pushes the envelope onto the request conduit `sendCh`, then runs
the select; `puts` counts how many times `rch` is returned to the pool
(branch puts plus the one in the deferred cleanup) and `drained` records
whether the deferred cleanup drained `rch`. -/
def identity.Send (i : identity) (req : Req) (sendCh rch : Nat)
    (s : SendRace) (choice : Nat) : SendTrace :=
  let env := sendEnvelope req rch
  match sendSelect s choice with
  | none => { sentOn := sendCh, env := env, outcome := none }
  | some (r, casePuts) =>
    { sentOn := sendCh, env := env,
      outcome := some { ret := r, puts := casePuts + 1, drained := sendDeferCleanup r } }

/-- `hWrapper` inside `identity.handle`: the handler fills a fresh `Res`; a
panic is recovered and converted into a `Res` with `Error` status, the
message `caught panic: <v>`, empty type and nil payload. -/
def hWrapper (h : Handler) (req : Req) : Res :=
  match h req with
  | HandlerStep.ret r => r
  | HandlerStep.panics m =>
    { status := Status.error, ty := "", data := none,
      err := some ("caught panic: " ++ m) }

/-- One iteration of the handling loop of `identity.handle` on a received
envelope: the handler is invoked through `hWrapper` on a fresh `Req` copied
from the envelope, and the resulting `Res` is sent on the envelope's embedded
reply conduit.  `h` is the identity's registered handler `i.h`. -/
def handleEnvelope (h : Handler) (env : ReqWithChan) : Nat × Res :=
  (env.chanH, hWrapper h { ty := env.req.ty, data := env.req.data })

/-- One accepted connect request inside `identity.Accept`: a request conduit
`reqCh` is borrowed from the pool, a handling loop is spawned, and a
`Connection` carrying `reqCh` and the identity's idle timeout is sent on the
requester's reply conduit `c.Chan`. -/
def identity.acceptOne (i : identity) (reqCh : Nat) (c : Startup.Connect) : Nat × Connection :=
  (c.chanH, { reqChan := reqCh, timeout := i.idleTimeout })

/-- The echo handler of the round-trip scenario: reflects the request's type
and payload with `Success` status into the fresh `Res`. -/
def echoHandler : Handler := fun req =>
  HandlerStep.ret { status := Status.success, ty := req.ty, data := req.data, err := none }

/-- Identity `B` of the round-trip scenario: accepting, with the echo
handler. -/
def idB : identity := { id := "B", ch := 1, h := some echoHandler, idleTimeout := 60 }

/-- A registry in which `A` and `B` are registered. -/
def dsAB : ds := { m := [("A", idA), ("B", idB)] }

/-- `roundTrip`: identity `a` resolves `b` through the registry `d` and
connects (the reply being the `Connection` that `b`'s accept loop sends
back), then sends `req` over the connection's request conduit; `b`'s handling
loop processes the envelope with `b`'s registered handler and the reply is
what `a`'s `Send` receives. -/
def roundTrip (a b : identity) (d : ds) (req : Req)
    (connCh reqCh rch c1 c2 : Nat) : Option SendTrace :=
  match b.h with
  | none => none
  | some h =>
    let accepted := identity.acceptOne b reqCh { reqID := a.id, chanH := connCh }
    match (identity.Connect a { timeout := defaultConnectOptions.timeout, discoveryService := some d }
        b.id connCh
        { ctxDone := false, timerFired := false, reply := ConnReply.value (some accepted.2) } c1).1 with
    | some (Except.ok conn) =>
      let reply := handleEnvelope h (sendEnvelope req rch)
      some (identity.Send a req conn.reqChan rch
        { ctxDone := false, timerFired := false, reply := SendReply.value reply.2 } c2)
    | _ => none

/-- Claim C2: if the send timeout elapses before a response or caller
cancellation (timer is the only ready event), `Send` returns a `Res` value
with `RequestTimeout` status rather than raising an error; if the caller's
context completes first, `Send` returns no result (Go `nil`); and if a
response arrives first, `Send` returns exactly that `Res`.  The default send
timeout is one hour. -/
theorem claim_C2_send_outcomes (i : identity) (req : Req) (sendCh rch choice : Nat) (r : Res) :
    ((identity.Send i req sendCh rch
        { ctxDone := false, timerFired := true, reply := SendReply.noValue } choice).outcome =
      some { ret := some timeoutRes, puts := 1, drained := true } ∧
      timeoutRes.status = Status.requestTimeout) ∧
    ((identity.Send i req sendCh rch
        { ctxDone := true, timerFired := false, reply := SendReply.noValue } choice).outcome =
      some { ret := none, puts := 2, drained := false }) ∧
    ((identity.Send i req sendCh rch
        { ctxDone := false, timerFired := false, reply := SendReply.value r } choice).outcome =
      some { ret := some r, puts := 1, drained := (r.status == Status.requestTimeout) }) ∧
    defaultSendOptions.timeout = 3600 := by
  refine ⟨⟨?_, rfl⟩, ?_, ?_, rfl⟩ <;>
    simp [identity.Send, sendSelect, sendReady, selectCase, Nat.mod_one,
      sendDeferCleanup, timeoutRes]

/-- The request of the round-trip and pool scenarios. -/
def reqHello : Req := { ty := "text", data := some "hello" }

/-- Claim C3 (code bug): on `Send`'s caller-cancellation exit path the
borrowed response conduit is returned to the pool twice — once by the
explicit `resChPool.Put(rCh)` in the `ctx.Done()` case and once by the
deferred cleanup — and no late-arriving value is drained, violating the
drain-before-return / return-at-most-once pool discipline.  For contrast,
the timeout exit path drains and returns the conduit exactly once. -/
theorem claim_C3_pool_double_put :
    ((identity.Send idA reqHello 5 9
        { ctxDone := true, timerFired := false, reply := SendReply.noValue } 0).outcome =
      some { ret := none, puts := 2, drained := false }) ∧
    ((identity.Send idA reqHello 5 9
        { ctxDone := false, timerFired := true, reply := SendReply.noValue } 0).outcome =
      some { ret := some timeoutRes, puts := 1, drained := true }) := by
  constructor <;> rfl

/-- Claim C4: `Connect` fails with `ErrNoDiscoveryService` when no discovery
service was supplied, with `ErrIDNotFound` when the target does not resolve,
with `ErrConnectionChan` when the reply conduit is closed, and with
`ErrNilConnection` when the reply arrives but is nil — and these outcomes are
pairwise distinct error values. -/
theorem claim_C4_connect_errors (i : identity) (o : ConnectOptions) (d : ds)
    (tgt : String) (connCh choice : Nat) (s : ConnectRace) :
    (o.discoveryService = none →
      (identity.Connect i o tgt connCh s choice).1 = some (.error .errNoDiscoveryService)) ∧
    (∀ e, o.discoveryService = some d → d.Find tgt = .error e →
      (identity.Connect i o tgt connCh s choice).1 = some (.error .errIDNotFound)) ∧
    (o.discoveryService = some d → (∃ loc, d.Find tgt = .ok loc) →
      (identity.Connect i o tgt connCh
          { ctxDone := false, timerFired := false, reply := ConnReply.closed } choice).1 =
        some (.error .errConnectionChan)) ∧
    (o.discoveryService = some d → (∃ loc, d.Find tgt = .ok loc) →
      (identity.Connect i o tgt connCh
          { ctxDone := false, timerFired := false, reply := ConnReply.value none } choice).1 =
        some (.error .errNilConnection)) ∧
    [GoError.errNoDiscoveryService, GoError.errIDNotFound, GoError.errConnectionChan,
      GoError.errNilConnection].Nodup := by
  refine ⟨?_, ?_, ?_, ?_, by decide⟩
  · intro hds
    simp [identity.Connect, hds]
  · intro e hds hfind
    simp [identity.Connect, hds, hfind]
  · rintro hds ⟨loc, hfind⟩
    simp [identity.Connect, hds, hfind, connectReady, selectCase, Nat.mod_one]
  · rintro hds ⟨loc, hfind⟩
    simp [identity.Connect, hds, hfind, connectReady, selectCase, Nat.mod_one]

/-- Witness for claim C4: the four outcomes evaluated concretely against the
registry `dsAB`. -/
theorem claim_C4_connect_errors_witness :
    (identity.Connect idA { timeout := 10, discoveryService := none } "B" 3
        { ctxDone := false, timerFired := false, reply := ConnReply.noValue } 0).1 =
      some (.error .errNoDiscoveryService) ∧
    (identity.Connect idA { timeout := 10, discoveryService := some dsAB } "missing" 3
        { ctxDone := false, timerFired := false, reply := ConnReply.noValue } 0).1 =
      some (.error .errIDNotFound) ∧
    (identity.Connect idA { timeout := 10, discoveryService := some dsAB } "B" 3
        { ctxDone := false, timerFired := false, reply := ConnReply.closed } 0).1 =
      some (.error .errConnectionChan) ∧
    (identity.Connect idA { timeout := 10, discoveryService := some dsAB } "B" 3
        { ctxDone := false, timerFired := false, reply := ConnReply.value none } 0).1 =
      some (.error .errNilConnection) := by
  have h1 := claim_C4_connect_errors idA { timeout := 10, discoveryService := none }
    dsAB "B" 3 0 { ctxDone := false, timerFired := false, reply := ConnReply.noValue }
  have h2 := claim_C4_connect_errors idA { timeout := 10, discoveryService := some dsAB }
    dsAB "missing" 3 0 { ctxDone := false, timerFired := false, reply := ConnReply.noValue }
  have h3 := claim_C4_connect_errors idA { timeout := 10, discoveryService := some dsAB }
    dsAB "B" 3 0 { ctxDone := false, timerFired := false, reply := ConnReply.noValue }
  exact ⟨h1.1 rfl,
    h2.2.1 GoError.errIDNotFound rfl rfl,
    h3.2.2.1 rfl ⟨1, rfl⟩,
    h3.2.2.2.1 rfl ⟨1, rfl⟩⟩

/-- The `Connection` used in the C5 counterexample. -/
def connB : Connection := { reqChan := 7, timeout := 60 }

/-- Counterexample to claim C5: with the caller's context completed AND the
reply simultaneously available, Go's select chooses pseudo-randomly among the
ready cases, so `Connect` can return the reply's `Connection` instead of
`ErrContextCompleted` — there is no fixed order of priority. -/
theorem claim_C5_counterexample :
    (identity.Connect idA { timeout := 10, discoveryService := some dsAB } "B" 3
        { ctxDone := true, timerFired := false, reply := ConnReply.value (some connB) } 1).1 =
      some (.ok connB) ∧
    (identity.Connect idA { timeout := 10, discoveryService := some dsAB } "B" 3
        { ctxDone := true, timerFired := false, reply := ConnReply.value (some connB) } 1).1 ≠
      some (.error .errContextCompleted) := by
  constructor
  · rfl
  · intro h
    rw [show (identity.Connect idA { timeout := 10, discoveryService := some dsAB } "B" 3
        { ctxDone := true, timerFired := false, reply := ConnReply.value (some connB) } 1).1 =
      some (.ok connB) from rfl] at h
    cases Option.some.inj h

/-- Claim C5 (amended): after sending the `ConnectRequest`, `Connect` races
caller cancellation, the connect timeout (default 10 seconds) and the reply;
whichever of the three events is the only one available determines the
outcome (`ErrContextCompleted`, `ErrConnectTimeout`, or the reply's
`Connection` respectively), but among simultaneously available events the
select chooses nondeterministically, so no outcome has fixed priority. -/
theorem claim_C5_connect_race (i : identity) (o : ConnectOptions) (d : ds)
    (tgt : String) (connCh choice : Nat) (c : Connection)
    (hds : o.discoveryService = some d) (hfind : ∃ loc, d.Find tgt = .ok loc) :
    ((identity.Connect i o tgt connCh
        { ctxDone := true, timerFired := false, reply := ConnReply.noValue } choice).1 =
      some (.error .errContextCompleted)) ∧
    ((identity.Connect i o tgt connCh
        { ctxDone := false, timerFired := true, reply := ConnReply.noValue } choice).1 =
      some (.error .errConnectTimeout)) ∧
    ((identity.Connect i o tgt connCh
        { ctxDone := false, timerFired := false, reply := ConnReply.value (some c) } choice).1 =
      some (.ok c)) ∧
    defaultConnectOptions.timeout = 10 := by
  rcases hfind with ⟨loc, hfind⟩
  refine ⟨?_, ?_, ?_, rfl⟩ <;>
    simp [identity.Connect, hds, hfind, connectReady, selectCase, Nat.mod_one]

/-- Witness for claim C5 (amended): the three single-event outcomes evaluated
concretely against the registry `dsAB`. -/
theorem claim_C5_connect_race_witness :
    (identity.Connect idA { timeout := 10, discoveryService := some dsAB } "B" 3
        { ctxDone := true, timerFired := false, reply := ConnReply.noValue } 4).1 =
      some (.error .errContextCompleted) ∧
    (identity.Connect idA { timeout := 10, discoveryService := some dsAB } "B" 3
        { ctxDone := false, timerFired := true, reply := ConnReply.noValue } 4).1 =
      some (.error .errConnectTimeout) ∧
    (identity.Connect idA { timeout := 10, discoveryService := some dsAB } "B" 3
        { ctxDone := false, timerFired := false, reply := ConnReply.value (some connB) } 4).1 =
      some (.ok connB) := by
  have h := claim_C5_connect_race idA { timeout := 10, discoveryService := some dsAB }
    dsAB "B" 3 4 connB rfl ⟨1, rfl⟩
  exact ⟨h.1, h.2.1, h.2.2.1⟩

/-- Claim C6: for every envelope consumed by the handling loop, the handler
is invoked (via `hWrapper`) with a fresh `Req` copied from the envelope and a
fresh `Res`; a panic inside the handler is recovered and converted into a
`Res` with `Error` status and the descriptive message `caught panic: <v>`,
sent on the envelope's embedded reply conduit — the failure never escapes the
loop (the loop step is a total function into `Nat × Res`). -/
theorem claim_C6_handler_panic_recovered (h : Handler) (env : ReqWithChan) (m : String)
    (hp : h { ty := env.req.ty, data := env.req.data } = HandlerStep.panics m) :
    handleEnvelope h env =
      (env.chanH,
        { status := Status.error, ty := "", data := none,
          err := some ("caught panic: " ++ m) }) ∧
    (handleEnvelope h env).2.status = Status.error ∧
    (∀ g : Handler, handleEnvelope g env =
      (env.chanH, hWrapper g { ty := env.req.ty, data := env.req.data })) := by
  refine ⟨?_, ?_, fun g => rfl⟩ <;>
    simp [handleEnvelope, hWrapper, hp]

/-- A handler that always panics, for the C6 witness. -/
def boomHandler : Handler := fun _ => HandlerStep.panics "Boom!"

/-- Witness for claim C6: the panicking handler's envelope is answered by an
`Error`-status `Res` carrying the recovered panic message. -/
theorem claim_C6_handler_panic_recovered_witness :
    handleEnvelope boomHandler { req := reqHello, chanH := 9 } =
      (9, { status := Status.error, ty := "", data := none,
            err := some ("caught panic: " ++ "Boom!") }) :=
  (claim_C6_handler_panic_recovered boomHandler { req := reqHello, chanH := 9 } "Boom!" rfl).1

/-- Claim C8: the round trip.  `A` connects to accepting `B` whose handler
echoes type and payload with `Success` status; sending
`Req{type: "text", payload: "hello"}` yields exactly
`Res{status: Success, type: "text", payload: "hello"}`; the envelope pushed
onto the connection's request conduit carries a copy of the request's type
and payload. -/
theorem claim_C8_round_trip (connCh reqCh rch c1 c2 : Nat) :
    roundTrip idA idB dsAB reqHello connCh reqCh rch c1 c2 =
      some { sentOn := reqCh,
             env := { req := { ty := "text", data := some "hello" }, chanH := rch },
             outcome := some { ret := some { status := Status.success, ty := "text",
                                             data := some "hello", err := none },
                               puts := 1, drained := false } } := by
  have hfind : dsAB.Find "B" = .ok 1 := rfl
  simp [roundTrip, idB, identity.Connect, hfind, connectReady, selectCase, Nat.mod_one,
    identity.acceptOne, identity.Send, sendSelect, sendReady, sendEnvelope,
    handleEnvelope, hWrapper, echoHandler, sendDeferCleanup, reqHello, idA]

end Startup
